import Mathlib

/-!
Verification of the core of the `eventual` asynchronous computation library
(`src/src/lib.rs`): the `AsyncResult`/`AsyncError` value shapes, the `Async`
capability with its default methods (`expect`, `receive`, `await`), the
adapters `and_then`, `or_else`, `and`, `or`, and the immediately-ready
implementations for `Result<T, E>` and `()`.

Asyncs are modelled denotationally by the `AsyncResult` they resolve to; the
adapters are embedded via the exact match structure of their closures, with
the effect on the fresh `Complete` handle made explicit as a `CompleteAction`.
Panicking paths are made explicit through the `Panics` outcome type.
-/

namespace Eventual

/-- Rust's `Result<T, E>` as it appears throughout `src/src/lib.rs`. -/
inductive RResult (T : Type) (E : Type) where
  | Ok : T → RResult T E
  | Err : E → RResult T E
deriving DecidableEq, Repr

/-- The enum `AsyncError<E>` of `src/src/lib.rs` (lines 373-376): either the
producer reported an application error (`Failed(E)`) or the computation was
abandoned (`Aborted`). -/
inductive AsyncError (E : Type) where
  | Failed : E → AsyncError E
  | Aborted : AsyncError E
deriving DecidableEq, Repr

/-- The type alias `AsyncResult<T, E> = Result<T, AsyncError<E>>` of
`src/src/lib.rs` (line 370). -/
abbrev AsyncResult (T E : Type) := RResult T (AsyncError E)

/-- Outcome of a call that may terminate the process by panicking, used to
model the `panic!` branches of `expect`, `unwrap`, `receive` and `await`. -/
inductive Panics (α : Type) where
  | ok : α → Panics α
  | panicked : String → Panics α
deriving DecidableEq, Repr

/-- `AsyncError::failed` (`src/src/lib.rs` lines 379-381). -/
def AsyncError.failed {E : Type} (err : E) : AsyncError E :=
  AsyncError.Failed err

/-- `AsyncError::aborted` (`src/src/lib.rs` lines 383-385). -/
def AsyncError.aborted {E : Type} : AsyncError E :=
  AsyncError.Aborted

/-- `AsyncError::is_aborted` (`src/src/lib.rs` lines 387-392). -/
def AsyncError.is_aborted {E : Type} : AsyncError E → Bool
  | AsyncError.Aborted => true
  | _ => false

/-- `AsyncError::is_failed` (`src/src/lib.rs` lines 394-399). -/
def AsyncError.is_failed {E : Type} : AsyncError E → Bool
  | AsyncError.Failed _ => true
  | _ => false

/-- `AsyncError::unwrap` (`src/src/lib.rs` lines 401-406): return the inner
application error, panicking on `Aborted`. -/
def AsyncError.unwrap {E : Type} : AsyncError E → Panics E
  | AsyncError.Failed err => Panics.ok err
  | AsyncError.Aborted => Panics.panicked "unwrapping a cancellation error"

/-- `AsyncError::take` (`src/src/lib.rs` lines 408-413). -/
def AsyncError.take {E : Type} : AsyncError E → Option E
  | AsyncError.Failed err => some err
  | _ => none

/-
===== The `Async` implementation for `Result<T, E>` (`src/src/lib.rs`
lines 303-328) and for `()` (lines 337-362). =====
-/

/-- `Result<T, E>::is_ready` (`src/src/lib.rs` lines 308-310): always true. -/
def RResult.is_ready {T E : Type} (_ : RResult T E) : Bool :=
  true

/-- `Result<T, E>::is_err` (`src/src/lib.rs` lines 312-314), which delegates
to the inherent `Result::is_err`. -/
def RResult.is_err {T E : Type} : RResult T E → Bool
  | RResult.Err _ => true
  | _ => false

/-- `Result<T, E>::await` (`src/src/lib.rs` lines 325-327):
`self.map_err(|e| AsyncError::Failed(e))`. -/
def RResult.await {T E : Type} : RResult T E → AsyncResult T E
  | RResult.Ok v => RResult.Ok v
  | RResult.Err e => RResult.Err (AsyncError.Failed e)

/-- `Result<T, E>::poll` (`src/src/lib.rs` lines 316-318): `Ok(self.await())`;
the `Err(self)` alternative of the return type is never produced. -/
def RResult.poll {T E : Type} (r : RResult T E) :
    RResult (AsyncResult T E) (RResult T E) :=
  RResult.Ok (RResult.await r)

/-- `Result<T, E>::ready` (`src/src/lib.rs` lines 320-323): `f(self); None`.
The callback is applied synchronously to the value itself, its result is the
first component, and the returned `Cancel` handle is `None`. -/
def RResult.ready {T E : Type} {σ : Type} (r : RResult T E)
    (f : RResult T E → σ) : σ × Option (RResult T E) :=
  (f r, none)

/-- `()::ready` (`src/src/lib.rs` lines 354-357): `f(self); None`. -/
def unitReady {σ : Type} (f : Unit → σ) : σ × Option Unit :=
  (f (), none)

/-- `impl Cancel<A> for Option<A>` (`src/src/lib.rs` lines 330-334):
`cancel` returns `self` unchanged. -/
def OptionCancel.cancel {A : Type} (o : Option A) : Option A :=
  o

/-
===== Default methods of the `Async` capability. =====
-/

/-- The fragment of the `Async` capability the default methods `expect` and
`receive` use: `poll` either extracts the `AsyncResult` (the value was ready)
or hands the value back unchanged (`Err(self)`). -/
structure AsyncOps (S T E : Type) where
  poll : S → RResult (AsyncResult T E) S

/-- `Async::expect` (`src/src/lib.rs` lines 112-118): return `poll`'s result
when it succeeds, otherwise panic. -/
def Async.expect {S T E : Type} (ops : AsyncOps S T E) (a : S) :
    Panics (AsyncResult T E) :=
  match ops.poll a with
  | RResult.Ok v => Panics.ok v
  | RResult.Err _ => Panics.panicked "the async value is not ready"

/-- The closure `Async::receive` registers through `ready`
(`src/src/lib.rs` lines 126-131): re-poll the value handed to the `ready`
callback; on success invoke `f` with the `AsyncResult`, otherwise panic. -/
def Async.receiveCallback {S T E : Type} {σ : Type} (ops : AsyncOps S T E)
    (f : AsyncResult T E → σ) (a : S) : Panics σ :=
  match ops.poll a with
  | RResult.Ok res => Panics.ok (f res)
  | RResult.Err _ =>
      Panics.panicked "ready callback invoked but is not actually ready"

/-- The callback `Async::await` hands to `receive` (`src/src/lib.rs`
line 140): send the received result into the one-shot channel. -/
def awaitCallback {T E : Type} (res : AsyncResult T E) :
    Option (AsyncResult T E) :=
  some res

/-- The `rx.recv()` side of the one-shot `std::sync::mpsc::channel` used by
`Async::await`: return the message that was sent, and fail — which `await`
turns into a panic — when every sender was dropped without sending. -/
def channelRecv {α : Type} : Option α → Panics α
  | some a => Panics.ok a
  | none => Panics.panicked "async disappeared without a trace"

/-- `Async::await` (`src/src/lib.rs` lines 135-142): install `awaitCallback`
through `receive` and block on the channel. `delivered` records what
`receive` does with the installed callback: `some res` when the callback is
invoked with `res`, `none` when the async is dropped without ever delivering
a result. -/
def Async.await {T E : Type} (delivered : Option (AsyncResult T E)) :
    Panics (AsyncResult T E) :=
  channelRecv (Option.bind delivered awaitCallback)

/-
===== The adapters `and_then`, `or_else`, `and`, `or`. =====

Both adapters allocate a fresh `(Complete, Future)` pair; the closures wired
to the upstream decide what happens to the fresh `Complete`.  `CompleteAction`
records that decision, taken verbatim from the match arms of the closures.
An upstream async (and the async returned by the callback `f`) is modelled
by the `AsyncResult` its `receive` delivers.
-/

/-- What the adapter closure does with the fresh `Complete` handle:
`complete(v)`, `fail(e)`, or dropping the handle without producing
(the `_ => {}` arms and `drop(complete)`). -/
inductive CompleteAction (T E : Type) where
  | complete : T → CompleteAction T E
  | fail : E → CompleteAction T E
  | dropped : CompleteAction T E
deriving DecidableEq, Repr

/-- Modelled from the spec: the `Future`/`Complete` pair is implemented in the
`future` and `core` modules, which are not among the sources. Per the spec
(sections 4.2 and 4.3 and the data-model invariants), the future of a pair
resolves to `Ok(v)` when its `Complete` receives `complete(v)`, to
`Err(Failed(e))` when it receives `fail(e)`, and to `Err(Aborted)` when the
`Complete` is dropped without producing. -/
def futureOutcome {T E : Type} : CompleteAction T E → AsyncResult T E
  | CompleteAction.complete v => RResult.Ok v
  | CompleteAction.fail e => RResult.Err (AsyncError.Failed e)
  | CompleteAction.dropped => RResult.Err AsyncError.Aborted

/-- The effect of the `Async::and_then` closures (`src/src/lib.rs`
lines 225-239) on the fresh `Complete`, given the upstream result `res` and
with the async returned by `f` modelled by the result it delivers:
on `Ok(v)` the inner `f(v).receive` closure completes with `Ok(u)`, fails
with `Failed(e)`, and drops the handle on the wildcard arm; on upstream
`Failed(e)` it fails; the upstream wildcard arm (`Aborted`) drops. -/
def and_thenAction {T U E : Type} (res : AsyncResult T E)
    (f : T → AsyncResult U E) : CompleteAction U (E) :=
  match res with
  | RResult.Ok v =>
      match f v with
      | RResult.Ok u => CompleteAction.complete u
      | RResult.Err (AsyncError.Failed e) => CompleteAction.fail e
      | _ => CompleteAction.dropped
  | RResult.Err (AsyncError.Failed e) => CompleteAction.fail e
  | _ => CompleteAction.dropped

/-- `Async::and_then` (`src/src/lib.rs` lines 218-244): the result the
returned future resolves to, once downstream interest has fired the outer
`complete.receive` closure with `Ok(complete)`. -/
def Async.and_then {T U E : Type} (res : AsyncResult T E)
    (f : T → AsyncResult U E) : AsyncResult U E :=
  futureOutcome (and_thenAction res f)

/-- The effect of the `Async::or_else` closures (`src/src/lib.rs`
lines 263-281) on the fresh `Complete`: on `Ok(v)` complete with `v`; on
`Failed(e)` the inner `f(e).receive` closure completes on `Ok`, fails on
`Failed`, and drops on the wildcard arm; on `Aborted` the closure runs
`drop(complete)`. -/
def or_elseAction {T E E2 : Type} (res : AsyncResult T E)
    (f : E → AsyncResult T E2) : CompleteAction T E2 :=
  match res with
  | RResult.Ok v => CompleteAction.complete v
  | RResult.Err (AsyncError.Failed e) =>
      match f e with
      | RResult.Ok v => CompleteAction.complete v
      | RResult.Err (AsyncError.Failed e2) => CompleteAction.fail e2
      | _ => CompleteAction.dropped
  | RResult.Err AsyncError.Aborted => CompleteAction.dropped

/-- `Async::or_else` (`src/src/lib.rs` lines 257-284): the result the
returned future resolves to. -/
def Async.or_else {T E E2 : Type} (res : AsyncResult T E)
    (f : E → AsyncResult T E2) : AsyncResult T E2 :=
  futureOutcome (or_elseAction res f)

/-- `Async::and` (`src/src/lib.rs` lines 172-174):
`self.and_then(move |_| next)`. -/
def Async.and {T U E : Type} (res : AsyncResult T E)
    (next : AsyncResult U E) : AsyncResult U E :=
  Async.and_then res (fun _ => next)

/-- `Async::or` (`src/src/lib.rs` lines 249-252):
`self.or_else(move |_| alt)`. -/
def Async.or {T E E2 : Type} (res : AsyncResult T E)
    (alt : AsyncResult T E2) : AsyncResult T E2 :=
  Async.or_else res (fun _ => alt)

/-
===== Theorems. =====
-/

/-- C1. `and_then(f)`: when the upstream resolves to `Ok(v)`, `f(v)` is
invoked and the result of the async it returns is piped into the new future
(so the new future resolves exactly to what `f v` resolves to); on upstream
`Failed(e)` the new future resolves to `Failed(e)` and the adapter acts
independently of `f` (so `f` is never invoked); on upstream `Aborted` the
adapter drops the fresh `Complete`, yielding `Aborted` downstream, again
independently of `f`. -/
theorem and_then_spec {T U E : Type} (v : T) (e : E)
    (f : T → AsyncResult U E) :
    Async.and_then (RResult.Ok v) f = f v ∧
    Async.and_then (RResult.Err (AsyncError.Failed e)) f
      = RResult.Err (AsyncError.Failed e) ∧
    (∀ g : T → AsyncResult U E,
      and_thenAction (RResult.Err (AsyncError.Failed e)) f
        = and_thenAction (RResult.Err (AsyncError.Failed e)) g) ∧
    and_thenAction (RResult.Err AsyncError.Aborted) f
      = CompleteAction.dropped ∧
    Async.and_then (RResult.Err AsyncError.Aborted) f
      = RResult.Err AsyncError.Aborted ∧
    (∀ g : T → AsyncResult U E,
      and_thenAction (RResult.Err AsyncError.Aborted) f
        = and_thenAction (RResult.Err AsyncError.Aborted) g) := by
  refine ⟨?_, rfl, fun g => rfl, rfl, rfl, fun g => rfl⟩
  cases h : f v with
  | Ok u => simp [Async.and_then, and_thenAction, futureOutcome, h]
  | Err err =>
      cases err with
      | Failed e2 => simp [Async.and_then, and_thenAction, futureOutcome, h]
      | Aborted => simp [Async.and_then, and_thenAction, futureOutcome, h]

/-- C2. `or_else(f)`: on upstream `Ok(v)` the new future resolves to `Ok(v)`
and the adapter acts independently of `f`; on upstream `Failed(e)`, `f(e)` is
invoked and its async's result is forwarded (`Ok` as `Ok`, `Failed` as
`Failed`); on upstream `Aborted` the closure drops the `Complete` and the new
future resolves to `Aborted`, independently of `f`. -/
theorem or_else_spec {T E E2 : Type} (v : T) (e : E) (w : T) (e2 : E2)
    (f f₁ f₂ : E → AsyncResult T E2)
    (h₁ : f₁ e = RResult.Ok w)
    (h₂ : f₂ e = RResult.Err (AsyncError.Failed e2)) :
    Async.or_else (RResult.Ok v) f = RResult.Ok v ∧
    (∀ g : E → AsyncResult T E2,
      or_elseAction (RResult.Ok v) f = or_elseAction (RResult.Ok v) g) ∧
    Async.or_else (RResult.Err (AsyncError.Failed e)) f₁ = RResult.Ok w ∧
    Async.or_else (RResult.Err (AsyncError.Failed e)) f₂
      = RResult.Err (AsyncError.Failed e2) ∧
    or_elseAction (RResult.Err AsyncError.Aborted) f
      = CompleteAction.dropped ∧
    Async.or_else (RResult.Err AsyncError.Aborted) f
      = RResult.Err AsyncError.Aborted ∧
    (∀ g : E → AsyncResult T E2,
      or_elseAction (RResult.Err AsyncError.Aborted) f
        = or_elseAction (RResult.Err AsyncError.Aborted) g) := by
  refine ⟨rfl, fun g => rfl, ?_, ?_, rfl, rfl, fun g => rfl⟩
  · simp [Async.or_else, or_elseAction, futureOutcome, h₁]
  · simp [Async.or_else, or_elseAction, futureOutcome, h₂]

/-- Witness for `or_else_spec` at concrete inputs: the upstream failure error
is `2`, `f₁` resolves to `Ok 5`, `f₂` resolves to `Failed 7`. -/
theorem or_else_spec_witness :
    ((fun _ : Nat => (RResult.Ok 5 : AsyncResult Nat Nat)) 2
        = RResult.Ok 5) ∧
    ((fun _ : Nat => (RResult.Err (AsyncError.Failed 7) : AsyncResult Nat Nat)) 2
        = RResult.Err (AsyncError.Failed 7)) ∧
    Async.or_else (RResult.Err (AsyncError.Failed 2))
        (fun _ : Nat => (RResult.Ok 5 : AsyncResult Nat Nat)) = RResult.Ok 5 :=
  ⟨rfl, rfl,
    (or_else_spec 1 2 5 7 (fun _ => RResult.Err AsyncError.Aborted)
        (fun _ => RResult.Ok 5) (fun _ => RResult.Err (AsyncError.Failed 7))
        rfl rfl).2.2.1⟩

/-- C3. Identity laws: `a.and_then(|v| Ok(v))` resolves exactly as `a` on all
outcomes (the callback `Ok(v)` is a `Result`, an async resolving to
`Ok(v)`); and `a.or_else(|e| Err(e))` resolves exactly as `a` on every `Ok`
outcome (the callback `Err(e)` is a `Result` resolving to `Failed(e)`). -/
theorem adapter_identity_laws {T E : Type} (a : AsyncResult T E) (v : T) :
    Async.and_then a (fun x => RResult.await (RResult.Ok x)) = a ∧
    Async.or_else (RResult.Ok v)
      (fun e : E => RResult.await (RResult.Err e : RResult T E))
      = RResult.Ok v := by
  refine ⟨?_, rfl⟩
  cases a with
  | Ok w => rfl
  | Err err => cases err with
    | Failed e => rfl
    | Aborted => rfl

/-- C4. The derived combinators are definitional: `a.and(next)` resolves as
`a.and_then(move |_| next)` and `a.or(alt)` resolves as
`a.or_else(move |_| alt)`, at the level of the adapter's `Complete` action
and hence of the resolved result. -/
theorem and_or_definitional {T U E E2 : Type} (a : AsyncResult T E)
    (next : AsyncResult U E) (alt : AsyncResult T E2) :
    Async.and a next = Async.and_then a (fun _ => next) ∧
    and_thenAction a (fun _ => next) = and_thenAction a (fun _ => next) ∧
    Async.or a alt = Async.or_else a (fun _ => alt) ∧
    or_elseAction a (fun _ => alt) = or_elseAction a (fun _ => alt) :=
  ⟨rfl, rfl, rfl, rfl⟩

/-- C5. A plain `Result<T, E>` is an async with permanent readiness:
`is_ready` is always true, `await` maps `Ok(v)` to `Ok(v)` and `Err(e)` to
`Err(Failed(e))` and never produces `Aborted`, and `poll` always succeeds
with `Ok` of that same `AsyncResult` — the `Err(self)` branch is never
taken. -/
theorem result_async_permanent_readiness {T E : Type} (r : RResult T E)
    (v : T) (e : E) :
    RResult.is_ready r = true ∧
    RResult.await (RResult.Ok v : RResult T E) = RResult.Ok v ∧
    RResult.await (RResult.Err e : RResult T E)
      = RResult.Err (AsyncError.Failed e) ∧
    RResult.await r ≠ RResult.Err AsyncError.Aborted ∧
    RResult.poll r = RResult.Ok (RResult.await r) := by
  refine ⟨rfl, rfl, rfl, ?_, rfl⟩
  cases r with
  | Ok w => simp [RResult.await]
  | Err e2 => simp [RResult.await]

/-- C6. `expect` returns the `AsyncResult` when `poll` succeeds and panics —
terminating the process — when `poll` returns `Err(self)`. -/
theorem expect_poll_or_panic {S T E : Type} (ops₁ ops₂ : AsyncOps S T E)
    (a₁ a₂ : S) (r : AsyncResult T E) (s₂ : S)
    (h₁ : ops₁.poll a₁ = RResult.Ok r)
    (h₂ : ops₂.poll a₂ = RResult.Err s₂) :
    Async.expect ops₁ a₁ = Panics.ok r ∧
    Async.expect ops₂ a₂ = Panics.panicked "the async value is not ready" := by
  constructor
  · simp [Async.expect, h₁]
  · simp [Async.expect, h₂]

/-- Witness for `expect_poll_or_panic`: an async whose `poll` always succeeds
with `Ok 3` against one whose `poll` always hands the value back. -/
theorem expect_poll_or_panic_witness :
    (AsyncOps.poll (S := Unit) (T := Nat) (E := Nat)
        ⟨fun _ => RResult.Ok (RResult.Ok 3)⟩ ()
        = RResult.Ok (RResult.Ok 3)) ∧
    Async.expect (S := Unit) (T := Nat) (E := Nat)
        ⟨fun _ => RResult.Ok (RResult.Ok 3)⟩ () = Panics.ok (RResult.Ok 3) :=
  ⟨rfl,
    (expect_poll_or_panic ⟨fun _ => RResult.Ok (RResult.Ok 3)⟩
        ⟨fun a => RResult.Err a⟩ () () (RResult.Ok 3) () rfl rfl).1⟩

/-- C7. `AsyncError::unwrap` returns the inner application error on
`Failed(e)` and panics on `Aborted`; the taxonomy is closed — every
`AsyncError` is exactly one of `Failed` or `Aborted`, so `is_failed` and
`is_aborted` are mutually exclusive and exhaustive. -/
theorem async_error_unwrap_closed {E : Type} (e : E) (x : AsyncError E) :
    AsyncError.unwrap (AsyncError.Failed e) = Panics.ok e ∧
    AsyncError.unwrap (AsyncError.Aborted : AsyncError E)
      = Panics.panicked "unwrapping a cancellation error" ∧
    AsyncError.is_failed x = !AsyncError.is_aborted x ∧
    (x = AsyncError.Aborted ∨ ∃ e0 : E, x = AsyncError.Failed e0) := by
  refine ⟨rfl, rfl, ?_, ?_⟩
  · cases x <;> rfl
  · cases x with
    | Failed e0 => exact Or.inr ⟨e0, rfl⟩
    | Aborted => exact Or.inl rfl

/-- C8. `await` returns exactly the `AsyncResult` the channel callback was
given when `receive` delivers one, and panics when the async is dropped
without ever delivering a result (the channel disappears with nothing
sent). -/
theorem await_channel_delivery {T E : Type} (res : AsyncResult T E) :
    Async.await (some res) = Panics.ok res ∧
    Async.await (none : Option (AsyncResult T E))
      = Panics.panicked "async disappeared without a trace" :=
  ⟨rfl, rfl⟩

/-- C9. For the immediately-ready implementations (`Result<T, E>` and `()`),
`ready(f)` invokes `f` synchronously exactly once with the value itself
(shown by a logging callback collecting exactly `[value]`, and by the result
being one application of `f`), and returns `None` as the `Cancel` handle, so
`cancel()` on that handle always yields `None`. -/
theorem ready_immediate_sync_once {T E : Type} {σ : Type} (r : RResult T E)
    (f : RResult T E → σ) (g : Unit → σ) :
    RResult.ready r (fun s => [s]) = ([r], none) ∧
    (RResult.ready r f).1 = f r ∧
    (RResult.ready r f).2 = none ∧
    OptionCancel.cancel (RResult.ready r f).2 = none ∧
    unitReady (fun u => [u]) = ([()], none) ∧
    (unitReady g).1 = g () ∧
    OptionCancel.cancel (unitReady g).2 = none :=
  ⟨rfl, rfl, rfl, rfl, rfl, rfl, rfl⟩

/-- C10. The closure `receive(f)` installs through `ready` re-polls the
async: when `poll` succeeds, `f` is invoked exactly once with the
`AsyncResult` (shown both with a general `f` and with a logging callback),
and when `poll` still fails it panics with
"ready callback invoked but is not actually ready" — so whenever `ready`
only fires on ready values, the panic branch is unreachable and the result
is delivered exactly once. -/
theorem receive_repoll_exact_once {S T E : Type} {σ : Type}
    (ops₁ ops₂ : AsyncOps S T E) (a₁ a₂ : S)
    (f : AsyncResult T E → σ) (r : AsyncResult T E) (s₂ : S)
    (h₁ : ops₁.poll a₁ = RResult.Ok r)
    (h₂ : ops₂.poll a₂ = RResult.Err s₂) :
    Async.receiveCallback ops₁ f a₁ = Panics.ok (f r) ∧
    Async.receiveCallback ops₁ (fun res => [res]) a₁ = Panics.ok [r] ∧
    Async.receiveCallback ops₂ f a₂
      = Panics.panicked "ready callback invoked but is not actually ready" := by
  refine ⟨?_, ?_, ?_⟩
  · simp [Async.receiveCallback, h₁]
  · simp [Async.receiveCallback, h₁]
  · simp [Async.receiveCallback, h₂]

/-- Witness for `receive_repoll_exact_once`: a ready async delivering `Ok 4`
and a never-ready one. -/
theorem receive_repoll_exact_once_witness :
    (AsyncOps.poll (S := Unit) (T := Nat) (E := Nat)
        ⟨fun _ => RResult.Ok (RResult.Ok 4)⟩ ()
        = RResult.Ok (RResult.Ok 4)) ∧
    Async.receiveCallback (S := Unit) (T := Nat) (E := Nat)
        ⟨fun _ => RResult.Ok (RResult.Ok 4)⟩ (fun res => [res]) ()
        = Panics.ok [RResult.Ok 4] :=
  ⟨rfl,
    (receive_repoll_exact_once ⟨fun _ => RResult.Ok (RResult.Ok 4)⟩
        ⟨fun a => RResult.Err a⟩ () () (fun res => [res]) (RResult.Ok 4) ()
        rfl rfl).2.1⟩

end Eventual
